import Mathlib

/- Shallow embedding of the google-classroom-downloader program
   (src/download.py), followed by theorems checking the specification's
   claims against it. -/

namespace ClassroomDownloader

/-- Character class of the regex character set [a-zA-Z0-9_-] used by all three
    patterns of extract_file_id_from_input (src/download.py line 75). -/
def isIdChar (c : Char) : Bool :=
  ('a' ≤ c && c ≤ 'z') || ('A' ≤ c && c ≤ 'Z') || ('0' ≤ c && c ≤ '9') ||
    c = '_' || c = '-'

/-- Embedding of re.search for a pattern of the shape
    literal-marker  followed by  ([a-zA-Z0-9_-]+)  :
    scan left to right; at the first position where the literal marker matches
    and is followed by at least one identifier character, capture the maximal
    (greedy) run of identifier characters after the marker. -/
def searchCapture (pat : List Char) : List Char → Option (List Char)
  | [] => none
  | c :: rest =>
    if pat.isPrefixOf (c :: rest) then
      if (((c :: rest).drop pat.length).takeWhile isIdChar).isEmpty then
        searchCapture pat rest
      else some (((c :: rest).drop pat.length).takeWhile isIdChar)
    else searchCapture pat rest

/-- Embedding of re.search for the anchored pattern r of 25-or-more identifier
    characters between hat and dollar. Without re.MULTILINE the hat matches
    only at the start, and the dollar matches at the very end of the string or
    just before one final newline character. -/
def wholeToken (s : List Char) : Option (List Char) :=
  if s.getLast? = some '\n' then
    if 25 ≤ s.dropLast.length && s.dropLast.all isIdChar then some s.dropLast
    else none
  else
    if 25 ≤ s.length && s.all isIdChar then some s else none

/-- Embedding of extract_file_id_from_input (src/download.py lines 65-80):
    try the three patterns in order, returning the first captured group,
    and None when no pattern matches. -/
def extract_file_id_from_input (s : List Char) : Option (List Char) :=
  match searchCapture "/d/".toList s with
  | some m => some m
  | none =>
    match searchCapture "/folders/".toList s with
    | some m => some m
    | none => wholeToken s

/-- String-level wrapper of extract_file_id_from_input. -/
def extractIdStr (s : String) : Option String :=
  (extract_file_id_from_input s.toList).map List.asString

example : extract_file_id_from_input "https://.../d/ABC123-_xyz".toList
    = some "ABC123-_xyz".toList := by decide

example : extract_file_id_from_input "https://.../folders/FOLDER1".toList
    = some "FOLDER1".toList := by decide

example : extract_file_id_from_input "short".toList = none := by decide

example : extract_file_id_from_input (List.replicate 25 'a')
    = some (List.replicate 25 'a') := by decide

/-- A captured group of searchCapture is nonempty, consists only of identifier
    characters, and is a contiguous substring of the input. -/
theorem searchCapture_sound (pat : List Char) :
    ∀ s r, searchCapture pat s = some r →
      r ≠ [] ∧ r.all isIdChar = true ∧ ∃ u v, s = u ++ r ++ v := by
  intro s
  induction s with
  | nil => intro r h; simp [searchCapture] at h
  | cons c rest ih =>
    intro r h
    rw [searchCapture] at h
    split at h
    · split at h
      · obtain ⟨h1, h2, u, v, huv⟩ := ih r h
        exact ⟨h1, h2, c :: u, v, by simp [huv]⟩
      · rename_i hrun
        cases h
        refine ⟨?_, List.all_takeWhile, ?_⟩
        · intro hnil
          rw [hnil] at hrun
          simp at hrun
        · refine ⟨(c :: rest).take pat.length,
            ((c :: rest).drop pat.length).dropWhile isIdChar, ?_⟩
          conv_rhs => rw [List.append_assoc,
            List.takeWhile_append_dropWhile isIdChar ((c :: rest).drop pat.length),
            List.take_append_drop pat.length (c :: rest)]
    · obtain ⟨h1, h2, u, v, huv⟩ := ih r h
      exact ⟨h1, h2, c :: u, v, by simp [huv]⟩

/-- The whole-token pattern also returns a nonempty all-identifier contiguous
    substring of the input. -/
theorem wholeToken_sound (s r : List Char) (h : wholeToken s = some r) :
    r ≠ [] ∧ r.all isIdChar = true ∧ ∃ u v, s = u ++ r ++ v := by
  unfold wholeToken at h
  split at h
  · rename_i hlast
    split at h
    · rename_i hcond
      cases h
      simp only [Bool.and_eq_true, decide_eq_true_eq] at hcond
      refine ⟨?_, hcond.2, [], ['\n'], ?_⟩
      · intro hnil
        rw [hnil] at hcond
        simp at hcond
      · simpa using (List.dropLast_append_getLast? '\n' hlast).symm
    · exact absurd h (by simp)
  · split at h
    · rename_i hcond
      cases h
      simp only [Bool.and_eq_true, decide_eq_true_eq] at hcond
      refine ⟨?_, hcond.2, [], [], by simp⟩
      intro hnil
      rw [hnil] at hcond
      simp at hcond
    · exact absurd h (by simp)

/-- A pattern starting with a slash never matches inside a string made only of
    identifier characters. -/
theorem searchCapture_slash_none (pat : List Char) :
    ∀ s, s.all isIdChar = true → searchCapture ('/' :: pat) s = none := by
  intro s
  induction s with
  | nil => intro _; rfl
  | cons c rest ih =>
    intro h
    simp only [List.all_cons, Bool.and_eq_true] at h
    have hne : (('/' :: pat).isPrefixOf (c :: rest)) = false := by
      show (('/' == c) && pat.isPrefixOf rest) = false
      have : ('/' == c) = false := by
        cases heq : ('/' == c) with
        | false => rfl
        | true =>
          have hc : ('/' : Char) = c := by simpa using heq
          rw [← hc] at h
          exact absurd h.1 (by decide)
      simp [this]
    rw [searchCapture, hne]
    simp only [Bool.false_eq_true, if_false]
    exact ih h.2

/-- The whole-token pattern matches a string that is entirely identifier
    characters and at least 25 characters long, returning it verbatim. -/
theorem wholeToken_all_id (s : List Char) (h25 : 25 ≤ s.length)
    (hall : s.all isIdChar = true) : wholeToken s = some s := by
  unfold wholeToken
  have hlast : ¬(s.getLast? = some '\n') := by
    intro hEq
    have hm := List.mem_of_mem_getLast? hEq
    have := List.all_eq_true.mp hall _ hm
    exact absurd this (by decide)
  rw [if_neg hlast, if_pos]
  simp [h25, hall]

/-- C3: extract_file_id_from_input tries the three patterns in fixed priority
    order (the /d/ path segment, then the /folders/ path segment, then the
    whole-string bare token of at least 25 identifier characters) and returns
    the first match's captured identifier or no match; on the spec's examples
    it yields ABC123-_xyz, FOLDER1 and no match respectively, and a bare token
    of at least 25 identifier characters is returned verbatim. -/
theorem C3_extract_priority_and_examples :
    (∀ s m, searchCapture "/d/".toList s = some m →
      extract_file_id_from_input s = some m) ∧
    (∀ s m, searchCapture "/d/".toList s = none →
      searchCapture "/folders/".toList s = some m →
      extract_file_id_from_input s = some m) ∧
    (∀ s, searchCapture "/d/".toList s = none →
      searchCapture "/folders/".toList s = none →
      extract_file_id_from_input s = wholeToken s) ∧
    extract_file_id_from_input "https://.../d/ABC123-_xyz".toList
      = some "ABC123-_xyz".toList ∧
    extract_file_id_from_input "https://.../folders/FOLDER1".toList
      = some "FOLDER1".toList ∧
    extract_file_id_from_input "short".toList = none ∧
    (∀ s, 25 ≤ s.length → s.all isIdChar = true →
      extract_file_id_from_input s = some s) := by
  refine ⟨?_, ?_, ?_, by decide, by decide, by decide, ?_⟩
  · intro s m h
    unfold extract_file_id_from_input
    rw [h]
  · intro s m h1 h2
    unfold extract_file_id_from_input
    rw [h1, h2]
  · intro s h1 h2
    unfold extract_file_id_from_input
    rw [h1, h2]
  · intro s h25 hall
    unfold extract_file_id_from_input
    rw [show ("/d/".toList : List Char) = '/' :: "d/".toList from rfl,
      searchCapture_slash_none _ s hall,
      show ("/folders/".toList : List Char) = '/' :: "folders/".toList from rfl,
      searchCapture_slash_none _ s hall,
      wholeToken_all_id s h25 hall]

/-- Witness for C3 at concrete inputs: a bare 25 character token is returned
    verbatim. -/
theorem C3_witness :
    extract_file_id_from_input (List.replicate 25 'a')
      = some (List.replicate 25 'a') :=
  C3_extract_priority_and_examples.2.2.2.2.2.2 (List.replicate 25 'a')
    (by decide) (by decide)

/-- C10: whenever extract_file_id_from_input returns a result, that result is a
    nonempty contiguous substring of the input consisting only of ASCII
    letters, digits, hyphens and underscores. -/
theorem C10_extract_substring :
    ∀ s r, extract_file_id_from_input s = some r →
      r ≠ [] ∧ r.all isIdChar = true ∧ ∃ u v, s = u ++ r ++ v := by
  intro s r h
  unfold extract_file_id_from_input at h
  split at h
  · cases h
    rename_i heq
    exact searchCapture_sound _ s r heq
  · split at h
    · cases h
      rename_i heq
      exact searchCapture_sound _ s r heq
    · exact wholeToken_sound s r h

/-- Witness for C10 at a concrete input. -/
theorem C10_witness :
    "ABC123-_xyz".toList ≠ [] ∧
    ("ABC123-_xyz".toList.all isIdChar = true) ∧
    ∃ u v, "https://.../d/ABC123-_xyz".toList
      = u ++ "ABC123-_xyz".toList ++ v :=
  C10_extract_substring "https://.../d/ABC123-_xyz".toList
    "ABC123-_xyz".toList (by decide)

/-- Embedding of the Python str.strip() calls: remove leading and trailing
    whitespace characters. -/
def pyStrip (s : String) : String :=
  ⟨((s.toList.dropWhile Char.isWhitespace).reverse.dropWhile
      Char.isWhitespace).reverse⟩

/-- Embedding of os.path.join with two components. -/
def pathJoin (a b : String) : String := a ++ "/" ++ b

/-- Embedding of the Python str.startswith test, on the character lists. -/
def strStartsWith (s pre : String) : Bool := pre.toList.isPrefixOf s.toList

/-- Embedding of Python str.split for a single-character separator: cut the
    list at every separator, keeping empty pieces, as Python does. -/
def splitOnChar (sep : Char) : List Char → List (List Char)
  | [] => [[]]
  | c :: rest =>
    if c = sep then [] :: splitOnChar sep rest
    else
      match splitOnChar sep rest with
      | [] => [[c]]
      | h :: t => (c :: h) :: t

/-- Embedding of Python str.replace: replace every non-overlapping occurrence
    of the pattern, scanning left to right. The fuel argument bounds the
    number of steps; passing the length of the list is always enough, since
    each step consumes at least one character. -/
def replaceSubAux (pat repl : List Char) : Nat → List Char → List Char
  | _, [] => []
  | 0, s => s
  | Nat.succ n, c :: rest =>
    if pat ≠ [] ∧ pat.isPrefixOf (c :: rest) then
      repl ++ replaceSubAux pat repl n (rest.drop (pat.length - 1))
    else
      c :: replaceSubAux pat repl n rest

/-- Embedding of Python str.replace, with the fuel instantiated. -/
def replaceSub (pat repl s : List Char) : List Char :=
  replaceSubAux pat repl s.length s

/-- Embedding of the extension computation of download_file (src/download.py
    line 118): export_mime_type.split slash, last piece, with every vnd. piece
    removed. -/
def file_extension (export_mime_type : String) : String :=
  ⟨replaceSub "vnd.".toList []
    ((splitOnChar '/' export_mime_type.toList).getLastD [])⟩

example : file_extension "application/pdf" = "pdf" := by decide

/-- Model of the local filesystem: the set of regular-file paths and the set
    of directory paths that exist, as lists without meaningful order. -/
structure FS where
  files : List String
  dirs : List String
deriving DecidableEq

/-- Embedding of os.path.exists: true when a file or a directory exists at the
    path. -/
def FS.existsPath (fs : FS) (p : String) : Bool :=
  fs.files.contains p || fs.dirs.contains p

/-- Effect of open(path, wb): the file exists afterwards (its content is not
    modelled). -/
def FS.addFile (fs : FS) (p : String) : FS :=
  if fs.files.contains p then fs else { fs with files := p :: fs.files }

/-- Effect of os.remove(path). -/
def FS.removeFile (fs : FS) (p : String) : FS :=
  { fs with files := fs.files.filter (fun q => ¬(q = p)) }

/-- Effect of os.makedirs(path, exist_ok=True). -/
def FS.addDir (fs : FS) (p : String) : FS :=
  if fs.dirs.contains p then fs else { fs with dirs := p :: fs.dirs }

/-- Metadata answer of drive_service.files().get(fileId, fields='name,
    mimeType'). -/
structure FileResp where
  name : String
  mimeType : String
deriving DecidableEq

/-- Embedding of the export_formats dictionary of download_file
    (src/download.py lines 107-113). -/
def export_formats (mime : String) : Option String :=
  if mime = "application/vnd.google-apps.document" then
    some "application/pdf"
  else if mime = "application/vnd.google-apps.spreadsheet" then
    some "application/vnd.openxmlformats-officedocument.spreadsheetml.sheet"
  else if mime = "application/vnd.google-apps.presentation" then
    some "application/vnd.openxmlformats-officedocument.presentationml.presentation"
  else none

/-- Summary dictionary accumulated by download_recursive (src/download.py
    lines 164-169). -/
structure Summary where
  total_folders : Nat
  total_files : Nat
  failed_downloads : List (String × String)
deriving DecidableEq

/-- Embedding of the streaming part of download_file: open the local file,
    then run the chunked transfer; on an exception, append (path, reason) to
    the failure list and delete the partially written file if it exists
    (src/download.py lines 129-147). The transfer argument is the outcome of
    iterating MediaIoBaseDownload.next_chunk to completion. -/
def runTransfer (transfer : Except String Unit) (fp : String)
    (failed : List (String × String)) (fs : FS) :
    Bool × List (String × String) × FS :=
  match transfer with
  | .ok _ => (true, failed, fs.addFile fp)
  | .error e =>
    let fs1 := fs.addFile fp
    (false, failed ++ [(fp, e)],
      if fs1.existsPath fp then fs1.removeFile fp else fs1)

/-- Embedding of download_file (src/download.py lines 83-147). The meta
    argument is the outcome of the files().get metadata call for file_id, the
    transfer argument the outcome of streaming its content (raw get_media or
    export_media); an error value models a raised exception. -/
def download_file (meta : Except String FileResp)
    (transfer : Except String Unit) (file_path : String)
    (failed_downloads : List (String × String)) (fs : FS) :
    Bool × List (String × String) × FS :=
  if fs.existsPath file_path then (true, failed_downloads, fs)
  else
    match meta with
    | .error e =>
      (false, failed_downloads ++ [(file_path, e)],
        if fs.existsPath file_path then fs.removeFile file_path else fs)
    | .ok m =>
      if strStartsWith m.mimeType "application/vnd.google-apps." then
        match export_formats m.mimeType with
        | some export_mime_type =>
          runTransfer transfer
            (file_path ++ "." ++ file_extension export_mime_type)
            failed_downloads fs
        | none =>
          (false, failed_downloads ++
            [(file_path, "Cannot download this file type: " ++ m.mimeType)], fs)
      else runTransfer transfer file_path failed_downloads fs

/-- Local path actually written by download_file for a given requested path
    and mime type: the requested path, with the export extension appended for
    a native type that has a mapped export target. -/
def target_path (file_path mime : String) : String :=
  if strStartsWith mime "application/vnd.google-apps." then
    match export_formats mime with
    | some export_mime_type => file_path ++ "." ++ file_extension export_mime_type
    | none => file_path
  else file_path

/-- Adding a file makes it present in the file list. -/
theorem FS.contains_addFile_self (fs : FS) (p : String) :
    ((fs.addFile p).files.contains p) = true := by
  unfold FS.addFile
  split <;> simp_all

/-- Removing a file removes every occurrence of it from the file list. -/
theorem FS.contains_removeFile_self (fs : FS) (p : String) :
    ((fs.removeFile p).files.contains p) = false := by
  simp [FS.removeFile]

/-- C4: when the chunked transfer raises mid-stream, download_file reports
    failure, appends one (path, reason) pair to the failure accumulator, and
    deletes the partially written local file, so no partial file exists at the
    written target path after the call. -/
theorem C4_transfer_failure_cleanup :
    ∀ (m : FileResp) (e fp : String) (failed : List (String × String))
      (fs : FS),
      fs.existsPath fp = false →
      (strStartsWith m.mimeType "application/vnd.google-apps." = false ∨
        ∃ emt, export_formats m.mimeType = some emt) →
      download_file (.ok m) (.error e) fp failed fs
        = (false, failed ++ [(target_path fp m.mimeType, e)],
            (fs.addFile (target_path fp m.mimeType)).removeFile
              (target_path fp m.mimeType)) ∧
      ((fs.addFile (target_path fp m.mimeType)).removeFile
          (target_path fp m.mimeType)).files.contains
            (target_path fp m.mimeType) = false := by
  intro m e fp failed fs hex hmime
  have hrun : ∀ wp, runTransfer (.error e) wp failed fs
      = (false, failed ++ [(wp, e)], (fs.addFile wp).removeFile wp) := by
    intro wp
    unfold runTransfer
    have h1 := FS.contains_addFile_self fs wp
    have : (fs.addFile wp).existsPath wp = true := by
      simp only [FS.existsPath, h1, Bool.true_or]
    simp [this]
  refine ⟨?_, FS.contains_removeFile_self _ _⟩
  unfold download_file target_path
  rw [hex]
  simp only [Bool.false_eq_true, if_false]
  rcases hmime with hm | ⟨emt, hemt⟩
  · rw [hm]
    simp only [Bool.false_eq_true, if_false]
    exact hrun fp
  · rw [hemt]
    split
    · exact hrun _
    · exact hrun fp

/-- Witness for C4: a plain binary file whose transfer fails mid-stream on an
    empty filesystem. -/
theorem C4_witness :
    FS.existsPath ⟨[], []⟩ "dst/f" = false ∧
    (download_file (.ok ⟨"f", "text/plain"⟩) (.error "boom") "dst/f" []
        ⟨[], []⟩
      = (false, [("dst/f", "boom")],
          (FS.addFile ⟨[], []⟩ "dst/f").removeFile "dst/f") ∧
      ((FS.addFile ⟨[], []⟩ "dst/f").removeFile "dst/f").files.contains
        "dst/f" = false) :=
  ⟨by decide,
    by
      have h := C4_transfer_failure_cleanup ⟨"f", "text/plain"⟩ "boom" "dst/f"
        [] ⟨[], []⟩ (by decide) (Or.inl (by decide))
      simpa [target_path] using h⟩

/-- C5: download_file maps a native Google document to the PDF export format
    and saves it at a path with the pdf extension appended; a native type with
    no mapped export target (such as a Google form) produces an
    unsupported-type failure entry, performs no transfer, and creates no local
    file. -/
theorem C5_native_export :
    ∀ (name fp : String) (failed : List (String × String)) (fs : FS)
      (transfer : Except String Unit),
      fs.existsPath fp = false →
      (download_file (.ok ⟨name, "application/vnd.google-apps.document"⟩)
          (.ok ()) fp failed fs
        = (true, failed, fs.addFile (fp ++ ".pdf"))) ∧
      (download_file (.ok ⟨name, "application/vnd.google-apps.form"⟩)
          transfer fp failed fs
        = (false,
            failed ++ [(fp,
              "Cannot download this file type: application/vnd.google-apps.form")],
            fs)) ∧
      (∀ mime, strStartsWith mime "application/vnd.google-apps." = true →
        export_formats mime = none →
        download_file (.ok ⟨name, mime⟩) transfer fp failed fs
          = (false,
              failed ++ [(fp, "Cannot download this file type: " ++ mime)],
              fs)) := by
  intro name fp failed fs transfer hex
  refine ⟨?_, ?_, ?_⟩
  · simp only [download_file, hex, Bool.false_eq_true, if_false,
      show strStartsWith "application/vnd.google-apps.document"
        "application/vnd.google-apps." = true from by decide, if_true,
      show export_formats "application/vnd.google-apps.document"
        = some "application/pdf" from by decide, runTransfer,
      show file_extension "application/pdf" = "pdf" from by decide,
      String.append_assoc,
      show (("." : String) ++ "pdf") = ".pdf" from by decide]
  · simp only [download_file, hex, Bool.false_eq_true, if_false,
      show strStartsWith "application/vnd.google-apps.form"
        "application/vnd.google-apps." = true from by decide, if_true,
      show export_formats "application/vnd.google-apps.form" = none from by
        decide,
      show (("Cannot download this file type: " : String)
          ++ "application/vnd.google-apps.form")
        = "Cannot download this file type: application/vnd.google-apps.form"
        from by decide]
  · intro mime hpre hnone
    simp only [download_file, hex, Bool.false_eq_true, if_false, hpre,
      if_true, hnone]

/-- Witness for C5: a Google document saved with the pdf extension, and a
    Google form rejected, both on an empty filesystem. -/
theorem C5_witness :
    FS.existsPath ⟨[], []⟩ "dst/Doc" = false ∧
    download_file (.ok ⟨"Doc", "application/vnd.google-apps.document"⟩)
        (.ok ()) "dst/Doc" [] ⟨[], []⟩
      = (true, [], FS.addFile ⟨[], []⟩ "dst/Doc.pdf") ∧
    download_file (.ok ⟨"Doc", "application/vnd.google-apps.form"⟩)
        (.ok ()) "dst/Doc" [] ⟨[], []⟩
      = (false,
          [("dst/Doc",
            "Cannot download this file type: application/vnd.google-apps.form")],
          ⟨[], []⟩) := by
  have h := C5_native_export "Doc" "dst/Doc" [] ⟨[], []⟩ (.ok ()) (by decide)
  exact ⟨by decide, h.1, h.2.1⟩

/-- Remote Drive node as reachable from one identifier. An err node models a
    file whose files().get metadata call raises HttpError; a file node carries
    the metadata and the outcome of streaming its content; a folder node
    carries its children in listing order, with the children of all pages of
    the paginated files().list loop (src/download.py lines 189-209)
    concatenated in the order the loop visits them. -/
inductive RNode where
  | err (id msg : String)
  | file (id name mimeType : String) (transfer : Except String Unit)
  | folder (id name : String) (children : List RNode)

mutual
/-- Embedding of download_recursive (src/download.py lines 150-223), with the
    filesystem threaded explicitly. -/
def download_recursive (fs : FS) (node : RNode) (current_folder : String)
    (summary_dict : Option Summary) : Summary × FS :=
  match summary_dict with
  | none => downloadNode fs node current_folder ⟨0, 0, []⟩
  | some s => downloadNode fs node current_folder s

/-- Body of download_recursive after the fresh-summary initialisation. -/
def downloadNode (fs : FS) (node : RNode) (current_folder : String)
    (s : Summary) : Summary × FS :=
  match node with
  | .err id msg =>
    ({ s with failed_downloads :=
        s.failed_downloads ++ [("File ID: " ++ id, msg)] }, fs)
  | .file _ name mimeType transfer =>
    let file_path := pathJoin (pyStrip current_folder) (pyStrip name)
    let r := download_file (.ok ⟨name, mimeType⟩) transfer file_path
      s.failed_downloads fs
    (if r.1 then
        { s with failed_downloads := r.2.1, total_files := s.total_files + 1 }
      else { s with failed_downloads := r.2.1 },
      r.2.2)
  | .folder _ name children =>
    let folder_path := pathJoin (pyStrip current_folder) (pyStrip name)
    downloadItems (fs.addDir folder_path) children folder_path
      { s with total_folders := s.total_folders + 1 }

/-- The inner loop of download_recursive over the listed children
    (src/download.py lines 202-204). -/
def downloadItems (fs : FS) (items : List RNode) (folder_path : String)
    (s : Summary) : Summary × FS :=
  match items with
  | [] => (s, fs)
  | item :: rest =>
    let r := downloadNode fs item folder_path s
    downloadItems r.2 rest folder_path r.1
end

/-- Embedding of download_google_drive_files (src/download.py lines 226-258):
    create the root folder, run the recursive download with a fresh summary,
    then exclude the root folder itself from the folder count. -/
def download_google_drive_files (fs : FS) (root : RNode)
    (root_folder : String) : Summary × FS :=
  let r := download_recursive (fs.addDir root_folder) root root_folder none
  (if r.1.total_folders ≥ 1 then
      { r.1 with total_folders := r.1.total_folders - 1 }
    else r.1,
    r.2)

example :
    (downloadItems ⟨[], []⟩
      [.file "i" "f" "text/plain" (.ok ()), .err "j" "boom"] "d"
      ⟨0, 0, []⟩).1
    = ⟨0, 1, [("File ID: j", "boom")]⟩ := by decide

/-- The children loop over a concatenation processes the first block, then the
    second from the resulting state. -/
theorem downloadItems_append (xs ys : List RNode) (fs : FS) (path : String)
    (s : Summary) :
    downloadItems fs (xs ++ ys) path s
      = downloadItems (downloadItems fs xs path s).2 ys path
          (downloadItems fs xs path s).1 := by
  induction xs generalizing fs s with
  | nil => simp [downloadItems]
  | cons x xs ih =>
    rw [List.cons_append, downloadItems, downloadItems]
    exact ih _ _

/-- C2: a node whose metadata fetch raises records exactly one (id, reason)
    pair in the failure list and returns with no recursion into its subtree
    (counts and filesystem untouched); inside a children loop, the siblings
    before and after the failing child are processed exactly as they would be
    otherwise, the failing child contributing only its single failure entry. -/
theorem C2_partial_failure_isolation :
    (∀ (fs : FS) (id msg path : String) (s : Summary),
      downloadNode fs (.err id msg) path s
        = ({ s with failed_downloads :=
              s.failed_downloads ++ [("File ID: " ++ id, msg)] }, fs)) ∧
    (∀ (pre post : List RNode) (fs : FS) (id msg path : String) (s : Summary),
      downloadItems fs (pre ++ .err id msg :: post) path s
        = downloadItems (downloadItems fs pre path s).2 post path
            { (downloadItems fs pre path s).1 with failed_downloads :=
                (downloadItems fs pre path s).1.failed_downloads
                  ++ [("File ID: " ++ id, msg)] }) := by
  constructor
  · intro fs id msg path s
    rfl
  · intro pre post fs id msg path s
    rw [downloadItems_append, downloadItems]
    rfl

/-- Summary s' extends summary s: the folder and file counts did not decrease
    and the failure list grew only by appending at the end. -/
def SummaryExt (s s' : Summary) : Prop :=
  s.total_folders ≤ s'.total_folders ∧ s.total_files ≤ s'.total_files ∧
    ∃ t, s'.failed_downloads = s.failed_downloads ++ t

theorem summaryExt_refl (s : Summary) : SummaryExt s s :=
  ⟨le_refl _, le_refl _, [], by simp⟩

theorem summaryExt_trans {a b c : Summary} (h1 : SummaryExt a b)
    (h2 : SummaryExt b c) : SummaryExt a c := by
  obtain ⟨f1, g1, t1, e1⟩ := h1
  obtain ⟨f2, g2, t2, e2⟩ := h2
  exact ⟨le_trans f1 f2, le_trans g1 g2, t1 ++ t2, by rw [e2, e1, List.append_assoc]⟩

/-- download_file only appends to the failure accumulator. -/
theorem download_file_failed_ext (meta : Except String FileResp)
    (transfer : Except String Unit) (fp : String)
    (failed : List (String × String)) (fs : FS) :
    ∃ t, (download_file meta transfer fp failed fs).2.1 = failed ++ t := by
  unfold download_file runTransfer
  split
  · exact ⟨[], by simp⟩
  · split
    · exact ⟨[(fp, _)], rfl⟩
    · split
      · split
        · split
          · exact ⟨[], by simp⟩
          · exact ⟨[(_, _)], rfl⟩
        · exact ⟨[(fp, _)], rfl⟩
      · split
        · exact ⟨[], by simp⟩
        · exact ⟨[(fp, _)], rfl⟩

mutual
/-- The walker only extends the summary it is passed. -/
theorem downloadNode_ext (fs : FS) (node : RNode) (path : String)
    (s : Summary) : SummaryExt s (downloadNode fs node path s).1 := by
  cases node with
  | err id msg =>
    exact ⟨le_refl _, le_refl _, [("File ID: " ++ id, msg)], rfl⟩
  | file id name mimeType transfer =>
    rw [downloadNode]
    obtain ⟨t, ht⟩ := download_file_failed_ext (.ok ⟨name, mimeType⟩) transfer
      (pathJoin (pyStrip path) (pyStrip name)) s.failed_downloads fs
    split
    · exact ⟨le_refl _, Nat.le_succ _, t, ht⟩
    · exact ⟨le_refl _, le_refl _, t, ht⟩
  | folder id name children =>
    rw [downloadNode]
    refine summaryExt_trans (b := { s with total_folders := s.total_folders + 1 })
      ⟨Nat.le_succ _, le_refl _, [], by simp⟩ ?_
    exact downloadItems_ext _ children _ _

/-- The children loop only extends the summary it is passed. -/
theorem downloadItems_ext (fs : FS) (items : List RNode) (path : String)
    (s : Summary) : SummaryExt s (downloadItems fs items path s).1 := by
  cases items with
  | nil => exact summaryExt_refl s
  | cons item rest =>
    rw [downloadItems]
    exact summaryExt_trans (downloadNode_ext fs item path s)
      (downloadItems_ext _ rest path _)
end

/-- C9: download_recursive returns the accumulator it was passed, updated in
    place: across any invocation the folder and file counts never decrease and
    the failure list is only appended to, never shortened or reordered; a
    missing accumulator starts from the fresh zero summary. -/
theorem C9_accumulator_invariant :
    (∀ (fs : FS) (node : RNode) (path : String) (s : Summary),
      SummaryExt s (download_recursive fs node path (some s)).1) ∧
    (∀ (fs : FS) (node : RNode) (path : String),
      download_recursive fs node path none
        = download_recursive fs node path (some ⟨0, 0, []⟩)) := by
  constructor
  · intro fs node path s
    exact downloadNode_ext fs node path s
  · intro fs node path
    rfl

/-- C6: download_google_drive_files reports the recursive folder count with
    the root folder itself excluded; concretely, a root folder with two
    immediate subfolders reports two total folders. -/
theorem C6_root_folder_excluded :
    (∀ (fs : FS) (id name dst : String) (children : List RNode),
      (download_google_drive_files fs (.folder id name children)
          dst).1.total_folders
        = (download_recursive (fs.addDir dst) (.folder id name children) dst
            none).1.total_folders - 1) ∧
    (download_google_drive_files ⟨[], []⟩
        (.folder "r" "Root" [.folder "a" "A" [], .folder "b" "B" []])
        "dst").1.total_folders = 2 := by
  constructor
  · intro fs id name dst children
    have h1 : 1 ≤ (download_recursive (fs.addDir dst)
        (.folder id name children) dst none).1.total_folders := by
      show 1 ≤ (downloadNode (fs.addDir dst) (.folder id name children) dst
        ⟨0, 0, []⟩).1.total_folders
      rw [downloadNode]
      have h := downloadItems_ext
        ((fs.addDir dst).addDir (pathJoin (pyStrip dst) (pyStrip name)))
        children (pathJoin (pyStrip dst) (pyStrip name))
        ⟨0 + 1, 0, []⟩
      exact h.1
    unfold download_google_drive_files
    simp only [ge_iff_le, h1, if_true]
  · decide

/-- Whether a transfer outcome is a success. -/
def transferOk : Except String Unit → Bool
  | .ok _ => true
  | .error _ => false

mutual
/-- A subtree is good when every metadata fetch in it succeeds and every file
    in it is a non-native file whose transfer succeeds. -/
def goodNode : RNode → Bool
  | .err _ _ => false
  | .file _ _ mimeType transfer =>
    !(strStartsWith mimeType "application/vnd.google-apps.") &&
      transferOk transfer
  | .folder _ _ children => goodItems children

/-- All nodes of the list are good. -/
def goodItems : List RNode → Bool
  | [] => true
  | x :: xs => goodNode x && goodItems xs
end

mutual
/-- Every local target path of the subtree, rooted at the given destination
    folder, already exists on the filesystem (files for file nodes,
    directories for folder nodes). -/
def treePresent : RNode → String → FS → Bool
  | .err _ _, _, _ => false
  | .file _ name _ _, path, fs =>
    fs.existsPath (pathJoin (pyStrip path) (pyStrip name))
  | .folder _ name children, path, fs =>
    fs.dirs.contains (pathJoin (pyStrip path) (pyStrip name)) &&
      itemsPresent children (pathJoin (pyStrip path) (pyStrip name)) fs

/-- Every local target path of every subtree in the list already exists. -/
def itemsPresent : List RNode → String → FS → Bool
  | [], _, _ => true
  | x :: xs, path, fs => treePresent x path fs && itemsPresent xs path fs
end

mutual
/-- Number of file nodes in a subtree. -/
def fileCount : RNode → Nat
  | .err _ _ => 0
  | .file _ _ _ _ => 1
  | .folder _ _ children => fileCountItems children

/-- Number of file nodes in a list of subtrees. -/
def fileCountItems : List RNode → Nat
  | [] => 0
  | x :: xs => fileCount x + fileCountItems xs
end

mutual
/-- Number of folder nodes in a subtree. -/
def folderCount : RNode → Nat
  | .err _ _ => 0
  | .file _ _ _ _ => 0
  | .folder _ _ children => 1 + folderCountItems children

/-- Number of folder nodes in a list of subtrees. -/
def folderCountItems : List RNode → Nat
  | [] => 0
  | x :: xs => folderCount x + folderCountItems xs
end

/-- Filesystem b has every file and directory of filesystem a. -/
def fsLe (a b : FS) : Prop :=
  (∀ p, a.files.contains p = true → b.files.contains p = true) ∧
  (∀ p, a.dirs.contains p = true → b.dirs.contains p = true)

theorem fsLe_refl (a : FS) : fsLe a a := ⟨fun _ h => h, fun _ h => h⟩

theorem fsLe_trans {a b c : FS} (h1 : fsLe a b) (h2 : fsLe b c) : fsLe a c :=
  ⟨fun p h => h2.1 p (h1.1 p h), fun p h => h2.2 p (h1.2 p h)⟩

theorem fsLe_addFile (fs : FS) (p : String) : fsLe fs (fs.addFile p) := by
  unfold FS.addFile
  split
  · exact fsLe_refl fs
  · exact ⟨fun q h => by simp at h ⊢; exact Or.inr h, fun q h => h⟩

theorem fsLe_addDir (fs : FS) (p : String) : fsLe fs (fs.addDir p) := by
  unfold FS.addDir
  split
  · exact fsLe_refl fs
  · exact ⟨fun q h => h, fun q h => by simp at h ⊢; exact Or.inr h⟩

theorem fsLe_existsPath {a b : FS} (h : fsLe a b) {p : String}
    (hp : a.existsPath p = true) : b.existsPath p = true := by
  unfold FS.existsPath at hp ⊢
  simp only [Bool.or_eq_true] at hp ⊢
  rcases hp with h1 | h1
  · exact Or.inl (h.1 p h1)
  · exact Or.inr (h.2 p h1)

theorem FS.contains_addDir_self (fs : FS) (p : String) :
    ((fs.addDir p).dirs.contains p) = true := by
  unfold FS.addDir
  split <;> simp_all

theorem FS.addDir_of_contains (fs : FS) (p : String)
    (h : fs.dirs.contains p = true) : fs.addDir p = fs := by
  unfold FS.addDir
  rw [if_pos h]

theorem FS.existsPath_addFile_self (fs : FS) (p : String) :
    ((fs.addFile p).existsPath p) = true := by
  have h := FS.contains_addFile_self fs p
  unfold FS.existsPath
  rw [h, Bool.true_or]

mutual
/-- Monotonicity of path presence under filesystem growth, tree version. -/
theorem treePresent_mono {a b : FS} (h : fsLe a b) :
    ∀ (node : RNode) (path : String), treePresent node path a = true →
      treePresent node path b = true := by
  intro node path hp
  cases node with
  | err id msg => exact absurd hp (by simp [treePresent])
  | file id name mimeType transfer =>
    rw [treePresent] at hp ⊢
    exact fsLe_existsPath h hp
  | folder id name children =>
    rw [treePresent] at hp ⊢
    simp only [Bool.and_eq_true] at hp ⊢
    exact ⟨h.2 _ hp.1, itemsPresent_mono h children _ hp.2⟩

/-- Monotonicity of path presence under filesystem growth, list version. -/
theorem itemsPresent_mono {a b : FS} (h : fsLe a b) :
    ∀ (items : List RNode) (path : String), itemsPresent items path a = true →
      itemsPresent items path b = true := by
  intro items path hp
  cases items with
  | nil => rfl
  | cons x xs =>
    rw [itemsPresent] at hp ⊢
    simp only [Bool.and_eq_true] at hp ⊢
    exact ⟨treePresent_mono h x _ hp.1, itemsPresent_mono h xs _ hp.2⟩
end

/-- download_file on a non-native file with a successful transfer reports
    success and adds the file unless it was already present. -/
theorem download_file_good (name mime : String) (u : Unit) (fp : String)
    (failed : List (String × String)) (fs : FS)
    (hmime : strStartsWith mime "application/vnd.google-apps." = false) :
    download_file (.ok ⟨name, mime⟩) (.ok u) fp failed fs
      = (true, failed, if fs.existsPath fp then fs else fs.addFile fp) := by
  cases h : fs.existsPath fp with
  | true => simp [download_file, h]
  | false => simp [download_file, runTransfer, h, hmime]

mutual
/-- A good run only grows the filesystem, and afterwards every target path of
    the subtree exists locally. -/
theorem goodNode_run (node : RNode) :
    ∀ (fs : FS) (path : String) (s : Summary), goodNode node = true →
      fsLe fs (downloadNode fs node path s).2 ∧
        treePresent node path (downloadNode fs node path s).2 = true := by
  intro fs path s hg
  cases node with
  | err id msg => exact absurd hg (by simp [goodNode])
  | file id name mimeType transfer =>
    have hg2 : (!(strStartsWith mimeType "application/vnd.google-apps.") &&
        transferOk transfer) = true := hg
    simp only [Bool.and_eq_true, Bool.not_eq_true'] at hg2
    obtain ⟨hmime, htr⟩ := hg2
    cases transfer with
    | error e => simp [transferOk] at htr
    | ok u =>
      have hdf := download_file_good name mimeType u
        (pathJoin (pyStrip path) (pyStrip name)) s.failed_downloads fs hmime
      rw [downloadNode]
      simp only [hdf]
      cases hex : fs.existsPath (pathJoin (pyStrip path) (pyStrip name)) with
      | true =>
        simp only [hex, if_true]
        exact ⟨fsLe_refl fs, by rw [treePresent]; exact hex⟩
      | false =>
        simp only [hex, Bool.false_eq_true, if_false]
        refine ⟨fsLe_addFile fs _, ?_⟩
        rw [treePresent]
        exact FS.existsPath_addFile_self fs _
  | folder id name children =>
    have hg2 : goodItems children = true := hg
    rw [downloadNode]
    have h1 := fsLe_addDir fs (pathJoin (pyStrip path) (pyStrip name))
    have h2 := goodItems_run children
      (fs.addDir (pathJoin (pyStrip path) (pyStrip name)))
      (pathJoin (pyStrip path) (pyStrip name))
      { s with total_folders := s.total_folders + 1 } hg2
    refine ⟨fsLe_trans h1 h2.1, ?_⟩
    rw [treePresent]
    simp only [Bool.and_eq_true]
    exact ⟨h2.1.2 _ (FS.contains_addDir_self fs _), h2.2⟩

/-- A good children run only grows the filesystem, and afterwards every target
    of every subtree in the list exists locally. -/
theorem goodItems_run (items : List RNode) :
    ∀ (fs : FS) (path : String) (s : Summary), goodItems items = true →
      fsLe fs (downloadItems fs items path s).2 ∧
        itemsPresent items path (downloadItems fs items path s).2 = true := by
  intro fs path s hg
  cases items with
  | nil => exact ⟨fsLe_refl fs, rfl⟩
  | cons x xs =>
    have hg2 : (goodNode x && goodItems xs) = true := hg
    simp only [Bool.and_eq_true] at hg2
    rw [downloadItems]
    have hx := goodNode_run x fs path s hg2.1
    have hxs := goodItems_run xs (downloadNode fs x path s).2 path
      (downloadNode fs x path s).1 hg2.2
    refine ⟨fsLe_trans hx.1 hxs.1, ?_⟩
    rw [itemsPresent]
    simp only [Bool.and_eq_true]
    exact ⟨treePresent_mono hxs.1 x path hx.2, hxs.2⟩
end

mutual
/-- When every target path of the subtree already exists, the walker changes
    nothing on disk, records no failure, and still counts every folder and
    every file of the subtree. -/
theorem present_run_node (node : RNode) :
    ∀ (fs : FS) (path : String) (s : Summary),
      treePresent node path fs = true →
      downloadNode fs node path s
        = ({ s with
              total_folders := s.total_folders + folderCount node,
              total_files := s.total_files + fileCount node }, fs) := by
  intro fs path s hp
  cases node with
  | err id msg => simp [treePresent] at hp
  | file id name mimeType transfer =>
    rw [treePresent] at hp
    rw [downloadNode]
    have hskip : download_file (.ok ⟨name, mimeType⟩) transfer
        (pathJoin (pyStrip path) (pyStrip name)) s.failed_downloads fs
        = (true, s.failed_downloads, fs) := by
      unfold download_file
      rw [hp]
      simp
    simp only [hskip, if_true]
    rfl
  | folder id name children =>
    rw [treePresent] at hp
    simp only [Bool.and_eq_true] at hp
    rw [downloadNode, FS.addDir_of_contains fs _ hp.1]
    rw [present_run_items children fs _ _ hp.2]
    show (({ s with
          total_folders := s.total_folders + 1 + folderCountItems children,
          total_files := s.total_files + fileCountItems children } : Summary),
        fs)
      = ({ s with
          total_folders := s.total_folders + (1 + folderCountItems children),
          total_files := s.total_files + fileCountItems children }, fs)
    rw [Nat.add_assoc]

/-- When every target path of every subtree of the list already exists, the
    children loop changes nothing on disk and counts all folders and files. -/
theorem present_run_items (items : List RNode) :
    ∀ (fs : FS) (path : String) (s : Summary),
      itemsPresent items path fs = true →
      downloadItems fs items path s
        = ({ s with
              total_folders := s.total_folders + folderCountItems items,
              total_files := s.total_files + fileCountItems items }, fs) := by
  intro fs path s hp
  cases items with
  | nil => rfl
  | cons x xs =>
    rw [itemsPresent] at hp
    simp only [Bool.and_eq_true] at hp
    rw [downloadItems, present_run_node x fs path s hp.1,
      present_run_items xs fs path _ hp.2]
    show (({ s with
          total_folders := s.total_folders + folderCount x
            + folderCountItems xs,
          total_files := s.total_files + fileCount x + fileCountItems xs } :
            Summary), fs)
      = ({ s with
          total_folders := s.total_folders
            + (folderCount x + folderCountItems xs),
          total_files := s.total_files + (fileCount x + fileCountItems xs) },
          fs)
    rw [Nat.add_assoc s.total_folders (folderCount x) (folderCountItems xs),
      Nat.add_assoc s.total_files (fileCount x) (fileCountItems xs)]
end

/-- C1 (amended): if the local target path passed to download_file already
    exists, it reports success without transferring and without touching the
    failure list or the filesystem; and for a tree of non-native files whose
    transfers all succeed, a second run of download_recursive against the same
    destination performs no transfer and leaves the filesystem unchanged,
    emitting skips, but every already-present file is still counted, so the
    second run's file-count equals the number of files of the tree rather
    than zero. -/
theorem C1_skip_and_second_run :
    (∀ (meta : Except String FileResp) (transfer : Except String Unit)
      (fp : String) (failed : List (String × String)) (fs : FS),
      FS.existsPath fs fp = true →
      download_file meta transfer fp failed fs = (true, failed, fs)) ∧
    (∀ (node : RNode) (fs : FS) (path : String) (s : Summary),
      goodNode node = true →
      (download_recursive (download_recursive fs node path (some s)).2 node
          path (some s)).2
        = (download_recursive fs node path (some s)).2 ∧
      (download_recursive (download_recursive fs node path (some s)).2 node
          path (some s)).1
        = { s with
              total_folders := s.total_folders + folderCount node,
              total_files := s.total_files + fileCount node }) := by
  constructor
  · intro meta transfer fp failed fs h
    unfold download_file
    rw [h]
    simp
  · intro node fs path s hg
    show ((downloadNode (downloadNode fs node path s).2 node path s).2
        = (downloadNode fs node path s).2) ∧
      ((downloadNode (downloadNode fs node path s).2 node path s).1
        = { s with
              total_folders := s.total_folders + folderCount node,
              total_files := s.total_files + fileCount node })
    have h1 := goodNode_run node fs path s hg
    have h2 := present_run_node node (downloadNode fs node path s).2 path s
      h1.2
    rw [h2]
    exact ⟨rfl, rfl⟩

/-- Counterexample to C1 as stated: after a first run has downloaded the only
    file of a small tree (so its local target path exists), a second run over
    the same destination counts that already-present file again, reporting a
    file-count of one, not zero. -/
theorem C1_counterexample :
    (download_recursive ⟨[], []⟩
        (.folder "r" "Root" [.file "i" "f" "text/plain" (.ok ())])
        "dst" none).2.existsPath "dst/Root/f" = true ∧
    ¬((download_recursive
        (download_recursive ⟨[], []⟩
          (.folder "r" "Root" [.file "i" "f" "text/plain" (.ok ())])
          "dst" none).2
        (.folder "r" "Root" [.file "i" "f" "text/plain" (.ok ())])
        "dst" none).1.total_files = 0) := by
  constructor
  · decide
  · decide

/-- Witness for C1 at a concrete input: skip semantics on a filesystem that
    already holds the target path. -/
theorem C1_witness :
    FS.existsPath ⟨["x"], []⟩ "x" = true ∧
    download_file (.ok ⟨"n", "text/plain"⟩) (.ok ()) "x" [] ⟨["x"], []⟩
      = (true, [], ⟨["x"], []⟩) :=
  ⟨by decide,
    C1_skip_and_second_run.1 (.ok ⟨"n", "text/plain"⟩) (.ok ()) "x" []
      ⟨["x"], []⟩ (by decide)⟩

/-- Classroom topic record, as returned by courses().topics().list. -/
structure Topic where
  topicId : String
  name : String
deriving DecidableEq

/-- One entry of a material's materials list: either it has a driveFile
    reference (with the nested drive file id), or not, in which case the repr
    field stands for the Python str() rendering used in the failure entry. -/
inductive MaterialItem where
  | driveFile (id : String)
  | other (repr : String)
deriving DecidableEq

/-- Classroom course work material, as consumed by download_single_course:
    optional topicId, optional materials list (key presence modelled by the
    Option), optional description, optional title. -/
structure Material where
  topicId : Option String
  materials : Option (List MaterialItem)
  description : Option String
  title : Option String
deriving DecidableEq

/-- Python str() rendering of a material, used only as an opaque label in
    no-content failure entries; modelled as a rendering of its fields. -/
def materialRepr (m : Material) : String :=
  (m.title.getD "None") ++ "|" ++ (m.description.getD "None")

/-- Embedding of get_course_materials (src/download.py lines 290-307): one
    single courseWorkMaterials().list call with no page-token loop, so only
    the service's first response page is consulted; the service's paginated
    listing is modelled as the list of its pages. -/
def get_course_materials (materialsPages : List (List Material)) :
    List Material :=
  materialsPages.headD []

/-- Embedding of the topic dictionary comprehension and its .get lookup with
    the No Topic default (src/download.py lines 338, 357): a Python dict keeps
    the last binding of a duplicated key, and a missing topicId never matches
    a key. -/
def topicDictGet (topics : List Topic) (topicId : Option String) : String :=
  match topicId with
  | none => "No Topic"
  | some tid =>
    match (topics.filter (fun t => t.topicId = tid)).getLast? with
    | some t => t.name
    | none => "No Topic"

/-- Embedding of the summary merge loop of download_single_course
    (src/download.py lines 370-371): integer fields add, the failure list
    concatenates. -/
def mergeSummary (a b : Summary) : Summary :=
  { total_folders := a.total_folders + b.total_folders,
    total_files := a.total_files + b.total_files,
    failed_downloads := a.failed_downloads ++ b.failed_downloads }

/-- Embedding of the inner loop over material['materials'] (src/download.py
    lines 365-374): a driveFile entry starts a recursive download into the
    topic folder with a fresh summary that is then merged in; any other entry
    records a no-drive-file failure. The resolve argument models the Drive
    service, mapping a file id to the remote subtree reachable from it. -/
def processMats (resolve : String → RNode) (topic_folder : String) :
    List MaterialItem → Summary → FS → Summary × FS
  | [], s, fs => (s, fs)
  | .driveFile fid :: rest, s, fs =>
    processMats resolve topic_folder rest
      (mergeSummary s (download_recursive fs (resolve fid) topic_folder
        none).1)
      (download_recursive fs (resolve fid) topic_folder none).2
  | .other rp :: rest, s, fs =>
    processMats resolve topic_folder rest
      { s with failed_downloads :=
          s.failed_downloads ++ [(rp, "No drive file found")] }
      fs

/-- Embedding of the per-material body of download_single_course
    (src/download.py lines 355-402): resolve the topic folder, create it, then
    follow the resolution priority of an explicit materials list, a
    description run through the identifier extractor, a title run through the
    extractor, or a no-content failure entry. -/
def process_material (resolve : String → RNode) (topics : List Topic)
    (course_folder : String) (m : Material) (s : Summary) (fs : FS) :
    Summary × FS :=
  let topic_folder := pathJoin course_folder (topicDictGet topics m.topicId)
  let fs1 := fs.addDir topic_folder
  match m.materials with
  | some mats => processMats resolve topic_folder mats s fs1
  | none =>
    match m.description with
    | some d =>
      match extractIdStr d with
      | some fid =>
        (mergeSummary s (download_recursive fs1 (resolve fid) topic_folder
            none).1,
          (download_recursive fs1 (resolve fid) topic_folder none).2)
      | none =>
        ({ s with failed_downloads :=
            s.failed_downloads ++ [(d, "Could not extract file ID")] }, fs1)
    | none =>
      match m.title with
      | some t =>
        match extractIdStr t with
        | some fid =>
          (mergeSummary s (download_recursive fs1 (resolve fid) topic_folder
              none).1,
            (download_recursive fs1 (resolve fid) topic_folder none).2)
        | none =>
          ({ s with failed_downloads :=
              s.failed_downloads ++ [(t, "Could not extract file ID")] }, fs1)
      | none =>
        ({ s with failed_downloads := s.failed_downloads ++
            [(materialRepr m,
              "No materials or description or Drive file found")] }, fs1)

/-- The for-material-in-materials loop of download_single_course. -/
def course_loop (resolve : String → RNode) (topics : List Topic)
    (course_folder : String) : List Material → Summary → FS → Summary × FS
  | [], s, fs => (s, fs)
  | m :: rest, s, fs =>
    course_loop resolve topics course_folder rest
      (process_material resolve topics course_folder m s fs).1
      (process_material resolve topics course_folder m s fs).2

/-- Embedding of download_single_course (src/download.py lines 331-412): make
    the course folder, fetch the first page of topics, and unless topics or
    materials are empty (in which case only a log line is produced and no
    summary exists), reverse the first page of materials and process them with
    a zeroed summary. The topicsPages and materialsPages arguments model the
    paginated classroom listings as their lists of pages. -/
def download_single_course (resolve : String → RNode)
    (topicsPages : List (List Topic)) (materialsPages : List (List Material))
    (download_path the_course_name : String) (fs : FS) :
    Option Summary × FS :=
  let course_folder := pathJoin download_path the_course_name
  let fs1 := fs.addDir course_folder
  let topics := topicsPages.headD []
  if topics.isEmpty then (none, fs1)
  else
    let materials := get_course_materials materialsPages
    if materials.isEmpty then (none, fs1)
    else
      let r := course_loop resolve topics course_folder materials.reverse
        ⟨0, 0, []⟩ fs1
      (some r.1, r.2)

/-- C7: merging two download summaries is field-wise addition, counts add and
    failure lists concatenate in order, so merging the summaries 2,3,[a] and
    1,5,[b] gives 3,8,[a,b]; and download_single_course aggregates each
    per-material recursive summary into the course summary by exactly this
    merge. -/
theorem C7_summary_merge :
    (∀ fa fb : String × String,
      mergeSummary ⟨2, 3, [fa]⟩ ⟨1, 5, [fb]⟩ = ⟨3, 8, [fa, fb]⟩) ∧
    (∀ a b : Summary,
      (mergeSummary a b).total_folders = a.total_folders + b.total_folders ∧
      (mergeSummary a b).total_files = a.total_files + b.total_files ∧
      (mergeSummary a b).failed_downloads
        = a.failed_downloads ++ b.failed_downloads) ∧
    (∀ (resolve : String → RNode) (tf fid : String)
      (rest : List MaterialItem) (s : Summary) (fs : FS),
      processMats resolve tf (.driveFile fid :: rest) s fs
        = processMats resolve tf rest
            (mergeSummary s (download_recursive fs (resolve fid) tf none).1)
            (download_recursive fs (resolve fid) tf none).2) := by
  refine ⟨?_, ?_, ?_⟩
  · intro fa fb
    rfl
  · intro a b
    exact ⟨rfl, rfl, rfl⟩
  · intro resolve tf fid rest s fs
    rfl

/-- Counterexample to C8 as stated: get_course_materials issues one list call
    with no pagination loop, so with a two-page materials listing it returns
    only the first page, not the complete joined list the claim describes. -/
theorem C8_counterexample :
    get_course_materials
        [[⟨none, none, none, some "a"⟩], [⟨none, none, none, some "b"⟩]]
      ≠ ([[⟨none, none, none, some "a"⟩], [⟨none, none, none, some "b"⟩]] :
          List (List Material)).flatten := by
  decide

/-- C8 (amended): download_single_course consults only the first page of the
    topics listing and the first page of the course work materials listing
    (no continuation token is followed, so later pages never influence the
    result), builds the topic mapping and material list from those first
    pages, and processes the first-page materials in reverse order; concretely
    a first materials page of titles a then b with a second page c yields the
    failure entries of b then a, and no entry for c. -/
theorem C8_first_page_reverse :
    (∀ (resolve : String → RNode) (p : List Topic)
      (rest rest' : List (List Topic)) (q : List Material)
      (rest2 rest2' : List (List Material)) (dp cn : String) (fs : FS),
      download_single_course resolve (p :: rest) (q :: rest2) dp cn fs
        = download_single_course resolve (p :: rest') (q :: rest2') dp cn fs) ∧
    (download_single_course (fun _ => .err "x" "e") [[⟨"t", "T"⟩]]
        [[⟨some "t", none, none, some "a"⟩, ⟨some "t", none, none, some "b"⟩],
          [⟨some "t", none, none, some "c"⟩]]
        "dl" "Course" ⟨[], []⟩).1
      = some ⟨0, 0, [("b", "Could not extract file ID"),
          ("a", "Could not extract file ID")]⟩ := by
  constructor
  · intro resolve p rest rest' q rest2 rest2' dp cn fs
    rfl
  · decide

end ClassroomDownloader
